import Mathlib

/-!
# Verification of the per-processor MSR sampling driver (src/driver.c)

Shallow embedding of the driver's data model and operations.

The C source is a Windows KMDF driver.  The parts relevant to the
verified claims are:

* the two bitfield unions `MSR_TEMPERATURE_TARGET_UNION` and
  `MSR_THERM_STATUS_UNION` (pure decoding of 64-bit raw register
  values into named fields);
* the worker routine `ThreadEntry` (affinity pinning, the
  `__try/__except`-guarded sequence of three `__readmsr` reads,
  temperature computation, report formatting, completion signalling,
  thread termination);
* the coordinator portion of `DriverEntry` (processor-count query,
  context-array allocation, the spawn loop with its spawn-failure
  compensation, and the wait loop over completion events).

Machine integers are modelled as `Nat` with explicit `% 2 ^ w`
truncation where the C code stores into a fixed-width location,
and temperatures as `Int` (the C field `int Temperature`).
Hardware register reads may fault (`__readmsr` can raise a hardware
exception); they are modelled as an oracle `Nat → Option Nat` mapping
an MSR address to `some value` or `none` (fault).  Thread-level
side effects (affinity set/revert, event signalling, thread
termination) are recorded as an explicit action trace.

Concurrency note: each spawned worker writes only its own context
slot and the coordinator reads a slot only after waiting on (or
itself setting) that slot's completion event, so the final state of
the pass is the composition of the per-slot worker results; the
coordinator model below is that composition, with the order of the
coordinator's own operations (spawn loop, then wait loop, both in
index order) preserved.  `WdfDriverCreate` and the CPU-brand-string
logging that precede the sampling pass in `DriverEntry` touch none of
the claimed state and are not modelled.
-/

namespace MsrDriver

/-- MSR address `IA32_THERM_STATUS` (`0x19C` in driver.c). -/
def IA32_THERM_STATUS : Nat := 0x19C

/-- MSR address `MSR_TEMPERATURE_TARGET` (`0x1A2` in driver.c). -/
def MSR_TEMPERATURE_TARGET : Nat := 0x1A2

/-- MSR address `MSR_CUSTOM_808` (`0x808` in driver.c). -/
def MSR_CUSTOM_808 : Nat := 0x808

/-- The NTSTATUS code STATUS_SUCCESS. -/
def STATUS_SUCCESS : Nat := 0

/-- The NTSTATUS code STATUS_UNSUCCESSFUL. -/
def STATUS_UNSUCCESSFUL : Nat := 0xC0000001

/-- The NTSTATUS code STATUS_INSUFFICIENT_RESOURCES. -/
def STATUS_INSUFFICIENT_RESOURCES : Nat := 0xC000009A

/-! ## Register decoders

The C source overlays a struct of `ULONG` bitfields on a `ULONG64`
value.  MSVC (the compiler of this Windows kernel source) allocates
bitfields inside 32-bit allocation units (the size of the declared
type `ULONG`), least-significant bit first, and a bitfield that does
not fit in the bits remaining in the current unit starts a fresh
unit — bitfields never straddle a unit boundary.

`MSR_TEMPERATURE_TARGET_UNION`:
`Reserved1:16` occupies bits 0–15, `Target:8` bits 16–23,
`Reserved2:8` bits 24–31 (first unit exactly filled), `Reserved3:32`
bits 32–63.  So `Target` reads bits 16–23 of the raw value.

`MSR_THERM_STATUS_UNION`: the twelve 1-bit flags occupy bits 0–11,
`Reserved1:4` bits 12–15, `DTS:8` bits 16–23, `Reserved2:4` bits
24–27.  At that point 28 bits of the first 32-bit unit are used and
only 4 remain, so `Resolution:5` does NOT fit: it starts the second
unit, occupying bits 32–36 of the overall value, and `ReadingValid:1`
follows at bit 37.  (`Reserved3:32` then starts a third unit, beyond
the 64 bits covered by `Value`; it is never read.)  The decoder below
reproduces this actual layout of the compiled source.
-/

/-- Decoded fields of `MSR_TEMPERATURE_TARGET_UNION.Fields`. -/
structure TemperatureTargetFields where
  Target : Nat
deriving DecidableEq

/-- Decoder of `MSR_TEMPERATURE_TARGET_UNION`: view of the raw 64-bit value as
its `Fields` struct; `Target` is bits 16–23. -/
def decodeTemperatureTarget (raw : Nat) : TemperatureTargetFields :=
  { Target := (raw >>> 16) % 2 ^ 8 }

/-- Decoded fields of `MSR_THERM_STATUS_UNION.Fields` (the reserved
ranges carry no semantics and are not exposed). -/
structure ThermStatusFields where
  StatusBit : Nat
  StatusLog : Nat
  PROCHOT : Nat
  PROCHOTLog : Nat
  CriticalTemp : Nat
  CriticalTempLog : Nat
  Threshold1 : Nat
  Threshold1Log : Nat
  Threshold2 : Nat
  Threshold2Log : Nat
  PowerLimit : Nat
  PowerLimitLog : Nat
  DTS : Nat
  Resolution : Nat
  ReadingValid : Nat
deriving DecidableEq

/-- Decoder of `MSR_THERM_STATUS_UNION`: view of the raw 64-bit value as its
`Fields` struct, at the bit offsets the MSVC allocation rules give
the declared bitfields (see the layout discussion above): flags at
bits 0–11, `DTS` at bits 16–23, `Resolution` at bits 32–36,
`ReadingValid` at bit 37. -/
def decodeThermStatus (raw : Nat) : ThermStatusFields :=
  { StatusBit := (raw >>> 0) % 2
    StatusLog := (raw >>> 1) % 2
    PROCHOT := (raw >>> 2) % 2
    PROCHOTLog := (raw >>> 3) % 2
    CriticalTemp := (raw >>> 4) % 2
    CriticalTempLog := (raw >>> 5) % 2
    Threshold1 := (raw >>> 6) % 2
    Threshold1Log := (raw >>> 7) % 2
    Threshold2 := (raw >>> 8) % 2
    Threshold2Log := (raw >>> 9) % 2
    PowerLimit := (raw >>> 10) % 2
    PowerLimitLog := (raw >>> 11) % 2
    DTS := (raw >>> 16) % 2 ^ 8
    Resolution := (raw >>> 32) % 2 ^ 5
    ReadingValid := (raw >>> 37) % 2 }

/-! ## The per-processor context (`CORE` struct) -/

/-- The `CORE` struct of driver.c.  `ThreadHandle` is modelled as a
`Bool` (whether the handle is non-NULL); the raw register snapshots
are the 64-bit values; `ThreadDoneEvent` is the signalled state of
the `KEVENT`. -/
structure CORE where
  CpuIndex : Nat
  ThreadHandle : Bool
  ThreadDoneEvent : Bool
  Temperature : Int
  TjMax : Nat
  ThermStatus : Nat
  Msr808 : Nat
deriving DecidableEq

/-- A zero-initialized `CORE` slot (after `RtlZeroMemory`) with its
`CpuIndex` set, as the coordinator's spawn loop prepares it. -/
def initCore (i : Nat) : CORE :=
  { CpuIndex := i
    ThreadHandle := false
    ThreadDoneEvent := false
    Temperature := 0
    TjMax := 0
    ThermStatus := 0
    Msr808 := 0 }

/-! ## Report formatting (`RtlStringCbPrintfA` in `ThreadEntry`) -/

/-- Printing with `%02d` for a nonnegative value: zero-pad to a minimum width of
two digits. -/
def pad2 (n : Nat) : String :=
  if n < 10 then "0" ++ toString n else toString n

/-- Upper-case hexadecimal digit, as `%X` prints. -/
def hexDigitChar (n : Nat) : Char :=
  if n < 10 then Char.ofNat (48 + n) else Char.ofNat (55 + n)

/-- Printing with `%016llX`: the 64-bit value in upper-case hexadecimal, zero-padded
to 16 digits, most significant digit first. -/
def hex16 (v : Nat) : String :=
  String.mk ((List.range 16).map fun k => hexDigitChar ((v >>> (4 * (15 - k))) % 16))

/-- First line of the valid-temperature report:
`Core(<NN>): Temp=<T>°C, MSR808=0x<16 hex digits>` and the newline. -/
def validReportLine1 (idx : Nat) (temp : Int) (msr808 : Nat) : String :=
  "Core(" ++ pad2 idx ++ "): Temp=" ++ toString temp ++ "°C, MSR808=0x" ++
    hex16 msr808 ++ "\n"

/-- Remaining lines of the valid-temperature report: the
thermal-status bit fields by name with their integer values. -/
def validReportRest (f : ThermStatusFields) : String :=
  "  ThermStatus: StatusBit=" ++ toString f.StatusBit ++
    ", PROCHOT=" ++ toString f.PROCHOT ++
    ", CriticalTemp=" ++ toString f.CriticalTemp ++
    ", Threshold1=" ++ toString f.Threshold1 ++
    ", Threshold2=" ++ toString f.Threshold2 ++
    ", PowerLimit=" ++ toString f.PowerLimit ++ "\n" ++
  "  DTS=" ++ toString f.DTS ++
    ", Resolution=" ++ toString f.Resolution ++
    ", ReadingValid=" ++ toString f.ReadingValid ++ "\n"

/-- The full valid-temperature report string. -/
def validReport (idx : Nat) (temp : Int) (msr808 : Nat) (f : ThermStatusFields) : String :=
  validReportLine1 idx temp msr808 ++ validReportRest f

/-- The invalid-reading report string:
`Core(<NN>): Temperature reading invalid, MSR808=0x<16 hex digits>`. -/
def invalidReport (idx : Nat) (msr808 : Nat) : String :=
  "Core(" ++ pad2 idx ++ "): Temperature reading invalid, MSR808=0x" ++
    hex16 msr808 ++ "\n"

/-- The `buffer` that `ThreadEntry` formats after computing the
temperature: the branch is on `pCore->Temperature >= 0`. -/
def formatBuffer (c : CORE) : String :=
  if c.Temperature ≥ 0 then
    validReport c.CpuIndex c.Temperature c.Msr808 (decodeThermStatus c.ThermStatus)
  else
    invalidReport c.CpuIndex c.Msr808

/-! ## The sampling worker (`ThreadEntry`) -/

/-- The mask `((KAFFINITY)1) << CpuIndex`, with `KAFFINITY` a 64-bit word:
the affinity mask `ThreadEntry` installs.  (For `CpuIndex ≥ 64` the C
shift is undefined behaviour; the truncating model keeps only the low
64 bits.) -/
def affinityMask (cpu : Nat) : Nat :=
  (1 <<< cpu) % 2 ^ 64

/-- Observable thread-level operations of a worker, in program
order. -/
inductive Action where
  | setAffinityMask (mask : Nat)
  | revertAffinity
  | setDoneEvent
  | terminateThread (status : Nat)
deriving DecidableEq

/-- A hardware-read oracle: for an MSR address, `some value` if the
`__readmsr` returns (the value of that register on the current
processor), `none` if it raises a hardware fault. -/
def MsrOracle : Type := Nat → Option Nat

/-- The `__try` block of `ThreadEntry`: the three `__readmsr` reads
in program order, each storing into its `CORE` field as it completes.
Returns the context after the block together with `true` when a read
faulted (control transferred to the `__except` filter), in which case
the fields of the remaining reads keep their previous contents. -/
def tryReadMsrs (readmsr : MsrOracle) (pCore : CORE) : CORE × Bool :=
  match readmsr MSR_TEMPERATURE_TARGET with
  | none => (pCore, true)
  | some v1 =>
    let c1 := { pCore with TjMax := v1 % 2 ^ 64 }
    match readmsr IA32_THERM_STATUS with
    | none => (c1, true)
    | some v2 =>
      let c2 := { c1 with ThermStatus := v2 % 2 ^ 64 }
      match readmsr MSR_CUSTOM_808 with
      | none => (c2, true)
      | some v3 => ({ c2 with Msr808 := v3 % 2 ^ 64 }, false)

/-- Outcome of one worker run: the final context slot, the trace of
thread-level actions, the formatted report (absent when the fault
handler ran, which formats no buffer), and the debug-log lines. -/
structure WorkerResult where
  core : CORE
  actions : List Action
  report : Option String
  dbgLogs : List String
deriving DecidableEq

/-- The `__except (EXCEPTION_EXECUTE_HANDLER)` handler of
`ThreadEntry`: logs, records `Temperature = -1`, reverts affinity,
sets the completion event and terminates the thread with
`STATUS_UNSUCCESSFUL`.  The hardware fault is consumed here and never
propagates further. -/
def exceptPath (mask : Nat) (pCore : CORE) : WorkerResult :=
  let c1 := { pCore with Temperature := -1 }
  let c2 := { c1 with ThreadDoneEvent := true }
  { core := c2
    actions := [Action.setAffinityMask mask, Action.revertAffinity,
      Action.setDoneEvent, Action.terminateThread STATUS_UNSUCCESSFUL]
    report := none
    dbgLogs := ["Core(" ++ toString pCore.CpuIndex ++ "): Exception reading MSRs.\n"] }

/-- The straight-line tail of `ThreadEntry` after the guarded reads
returned normally: revert affinity, compute the temperature from the
decoded fields, format and log the report, set the completion event,
terminate with `STATUS_SUCCESS`. -/
def normalPath (mask : Nat) (pCore : CORE) : WorkerResult :=
  let f := decodeThermStatus pCore.ThermStatus
  let t := (decodeTemperatureTarget pCore.TjMax).Target
  let c1 := { pCore with Temperature :=
    if f.ReadingValid ≠ 0 then (t : Int) - (f.DTS : Int) else -1 }
  let buffer := formatBuffer c1
  let c2 := { c1 with ThreadDoneEvent := true }
  { core := c2
    actions := [Action.setAffinityMask mask, Action.revertAffinity,
      Action.setDoneEvent, Action.terminateThread STATUS_SUCCESS]
    report := some buffer
    dbgLogs := [buffer] }

/-- The worker `ThreadEntry`: pins affinity to `1 << CpuIndex`, runs the guarded
read sequence, and continues on the normal path or the exception
handler.  Total: every run terminates through one of the two paths,
each of which signals the completion event. -/
def threadEntry (readmsr : MsrOracle) (pCore : CORE) : WorkerResult :=
  let mask := affinityMask pCore.CpuIndex
  match tryReadMsrs readmsr pCore with
  | (c, true) => exceptPath mask c
  | (c, false) => normalPath mask c

/-! ## The coordinator (`DriverEntry`, from the processor-count query on)

`DriverEntry` first calls `WdfDriverCreate` and logs the CPU brand
string; neither touches the sampling state and they are not modelled.
The modelled portion queries the live processor count, allocates and
zero-initializes the context array, runs the spawn loop (with the
spawn-failure compensation that signals the event itself), and then
the wait loop, which waits — in index order — on the completion event
of every slot whose `ThreadHandle` is non-NULL, closing the handle
after each wait, and finally returns `STATUS_SUCCESS`.

Each spawned worker runs `ThreadEntry` on its own slot and nothing
else ever writes that slot, so the slot's state once its completion
event is observed set is exactly the worker's `threadEntry` result;
the model composes the pass from those per-slot results. -/

/-- Bookkeeping for one context slot of a pass: its final `CORE`
state, whether a worker was actually spawned for it, whether the
completion event was set by the coordinator itself (spawn-failure
compensation; otherwise the worker set it), and the report the worker
emitted, if any. -/
structure SlotInfo where
  core : CORE
  spawnedWorker : Bool
  eventSetByCoordinator : Bool
  report : Option String
deriving DecidableEq

/-- Result of one sampling pass. -/
structure DriverResult where
  status : Nat
  allocated : Bool
  spawnedCount : Nat
  slots : List SlotInfo
  waitedOn : List Nat
  spawnFailures : List Nat
  logs : List String
deriving DecidableEq

/-- The spawn-loop body for slot `i` of `DriverEntry`, composed with
the run of the worker it spawns (when the spawn succeeds).  On spawn
success `ThreadHandle` is the non-NULL handle and the worker's run
determines the slot's final fields; on spawn failure the handle is
set to NULL and the coordinator itself sets the completion event. -/
def spawnSlot (spawnOk : Nat → Bool) (readmsr : Nat → MsrOracle) (i : Nat) : SlotInfo :=
  let c := initCore i
  if spawnOk i then
    let w := threadEntry (readmsr i) c
    { core := { w.core with ThreadHandle := true }
      spawnedWorker := true
      eventSetByCoordinator := false
      report := w.report }
  else
    { core := { c with ThreadHandle := false, ThreadDoneEvent := true }
      spawnedWorker := false
      eventSetByCoordinator := true
      report := none }

/-- The wait loop of `DriverEntry` closes the handle of every slot it
waited on (`ThreadHandle = NULL` afterwards); slots it skipped had a
NULL handle already. -/
def closeHandle (s : SlotInfo) : SlotInfo :=
  { s with core := { s.core with ThreadHandle := false } }

/-- The coordinator `DriverEntry` from the processor-count query on.  `coreCount` is
the value `KeQueryActiveProcessorCountEx(ALL_PROCESSOR_GROUPS)`
returned; `allocOk` whether `ExAllocatePoolWithTag` succeeds;
`spawnOk i` whether `PsCreateSystemThread` succeeds for slot `i`;
`readmsr i` the hardware-read oracle seen by the worker pinned to
processor `i`. -/
def driverEntry (allocOk : Bool) (coreCount : Nat) (spawnOk : Nat → Bool)
    (readmsr : Nat → MsrOracle) : DriverResult :=
  if coreCount = 0 then
    { status := STATUS_UNSUCCESSFUL
      allocated := false
      spawnedCount := 0
      slots := []
      waitedOn := []
      spawnFailures := []
      logs := ["No active processors found.\n"] }
  else if allocOk then
    let afterSpawn := (List.range coreCount).map (spawnSlot spawnOk readmsr)
    let failures := (List.range coreCount).filter (fun i => !(spawnOk i))
    let waited := (List.range coreCount).filter (fun i => spawnOk i)
    { status := STATUS_SUCCESS
      allocated := true
      spawnedCount := waited.length
      slots := afterSpawn.map closeHandle
      waitedOn := waited
      spawnFailures := failures
      logs := ["WinMSRDriver: All core temperature readings completed.\n"] }
  else
    { status := STATUS_INSUFFICIENT_RESOURCES
      allocated := false
      spawnedCount := 0
      slots := []
      waitedOn := []
      spawnFailures := []
      logs := ["Failed to allocate memory for CoreArray.\n"] }

/-- Test `listBeginsWith s p` is `true` when `p` is an initial segment of
`s`. -/
def listBeginsWith : List Char → List Char → Bool
  | _, [] => true
  | [], _ :: _ => false
  | c :: cs, d :: ds => c == d && listBeginsWith cs ds

/-- Whether the string `s` begins with the string `p`. -/
def strBeginsWith (s p : String) : Bool :=
  listBeginsWith s.data p.data

/-- Whether the thread's affinity is still narrowed after the given
action trace: a `setAffinityMask` narrows it, `revertAffinity`
restores the prior scope. -/
def narrowedAfter (acts : List Action) : Bool :=
  acts.foldl
    (fun b a =>
      match a with
      | Action.setAffinityMask _ => true
      | Action.revertAffinity => false
      | _ => b)
    false

/-! ## Helper lemmas (shared across the claim theorems) -/

/-- Every worker run — normal or fault path — leaves the completion
event set. -/
theorem threadEntry_done (readmsr : MsrOracle) (c : CORE) :
    (threadEntry readmsr c).core.ThreadDoneEvent = true := by
  unfold threadEntry tryReadMsrs
  cases readmsr MSR_TEMPERATURE_TARGET with
  | none => rfl
  | some v1 =>
    cases readmsr IA32_THERM_STATUS with
    | none => rfl
    | some v2 =>
      cases readmsr MSR_CUSTOM_808 with
      | none => rfl
      | some v3 => rfl

/-- Characterization of a worker run whose three reads all succeed:
it is the normal path on the context holding the three truncated raw
values. -/
theorem threadEntry_of_reads_ok (readmsr : MsrOracle) (c : CORE) (t s m : Nat)
    (h1 : readmsr MSR_TEMPERATURE_TARGET = some t)
    (h2 : readmsr IA32_THERM_STATUS = some s)
    (h3 : readmsr MSR_CUSTOM_808 = some m) :
    threadEntry readmsr c =
      normalPath (affinityMask c.CpuIndex)
        { c with TjMax := t % 2 ^ 64, ThermStatus := s % 2 ^ 64, Msr808 := m % 2 ^ 64 } := by
  unfold threadEntry tryReadMsrs
  rw [h1, h2, h3]

/-! ## C1 — temperature computation on successful reads -/

/-- C1: For every worker whose three register reads succeed: if the
decoded thermal-status `ReadingValid` field is nonzero, the recorded
temperature is `Target − DTS` as plain integer subtraction (negative
results preserved, not clamped); if `ReadingValid` is zero, the
recorded temperature is `-1` regardless of the other fields. -/
theorem C1_temperature_from_decode (readmsr : MsrOracle) (c : CORE) (t s m : Nat)
    (h1 : readmsr MSR_TEMPERATURE_TARGET = some t)
    (h2 : readmsr IA32_THERM_STATUS = some s)
    (h3 : readmsr MSR_CUSTOM_808 = some m)
    (ht : t < 2 ^ 64) (hs : s < 2 ^ 64) :
    ((decodeThermStatus s).ReadingValid ≠ 0 →
      (threadEntry readmsr c).core.Temperature =
        ((decodeTemperatureTarget t).Target : Int) - ((decodeThermStatus s).DTS : Int))
    ∧ ((decodeThermStatus s).ReadingValid = 0 →
      (threadEntry readmsr c).core.Temperature = -1) := by
  rw [threadEntry_of_reads_ok readmsr c t s m h1 h2 h3,
    Nat.mod_eq_of_lt ht, Nat.mod_eq_of_lt hs]
  unfold normalPath
  constructor
  · intro h
    simp [h]
  · intro h
    simp [h]

/-- Witness for C1 at a concrete input: `Target = 100`, `DTS = 40`,
`ReadingValid` set, giving temperature `60`. -/
theorem C1_temperature_from_decode_witness :
    (threadEntry
      (fun a => if a = MSR_TEMPERATURE_TARGET then some (100 <<< 16)
        else if a = IA32_THERM_STATUS then some (2 ^ 37 + (40 <<< 16))
        else some 0)
      (initCore 0)).core.Temperature = 60 := by
  have h := C1_temperature_from_decode
    (fun a => if a = MSR_TEMPERATURE_TARGET then some (100 <<< 16)
      else if a = IA32_THERM_STATUS then some (2 ^ 37 + (40 <<< 16))
      else some 0)
    (initCore 0) (100 <<< 16) (2 ^ 37 + (40 <<< 16)) 0
    (by decide) (by decide) (by decide) (by decide) (by decide)
  rw [h.1 (by decide)]
  decide

/-! ## C2 — fault containment in the worker -/

/-- C2: If any of the three register reads raises a hardware fault,
the worker aborts the remaining reads, records `Temperature = -1`,
still sets its completion event, and terminates normally (through the
exception handler, with `PsTerminateSystemThread(STATUS_UNSUCCESSFUL)`)
— the fault is consumed by the handler and does not propagate out of
the worker. -/
theorem C2_fault_containment (readmsr : MsrOracle) (c : CORE)
    (hf : readmsr MSR_TEMPERATURE_TARGET = none ∨
      readmsr IA32_THERM_STATUS = none ∨
      readmsr MSR_CUSTOM_808 = none) :
    (threadEntry readmsr c).core.Temperature = -1 ∧
    (threadEntry readmsr c).core.ThreadDoneEvent = true ∧
    (threadEntry readmsr c).actions =
      [Action.setAffinityMask (affinityMask c.CpuIndex), Action.revertAffinity,
        Action.setDoneEvent, Action.terminateThread STATUS_UNSUCCESSFUL] ∧
    (threadEntry readmsr c).report = none := by
  unfold threadEntry tryReadMsrs
  cases h1 : readmsr MSR_TEMPERATURE_TARGET with
  | none => exact ⟨rfl, rfl, rfl, rfl⟩
  | some v1 =>
    cases h2 : readmsr IA32_THERM_STATUS with
    | none => exact ⟨rfl, rfl, rfl, rfl⟩
    | some v2 =>
      cases h3 : readmsr MSR_CUSTOM_808 with
      | none => exact ⟨rfl, rfl, rfl, rfl⟩
      | some v3 =>
        rcases hf with h | h | h
        · rw [h1] at h; cases h
        · rw [h2] at h; cases h
        · rw [h3] at h; cases h

/-- Witness for C2: a worker whose every read faults records
temperature `-1`, signals completion, and terminates through the
handler. -/
theorem C2_fault_containment_witness :
    (threadEntry (fun _ => none) (initCore 0)).core.Temperature = -1 ∧
    (threadEntry (fun _ => none) (initCore 0)).core.ThreadDoneEvent = true ∧
    (threadEntry (fun _ => none) (initCore 0)).actions =
      [Action.setAffinityMask (affinityMask (initCore 0).CpuIndex),
        Action.revertAffinity, Action.setDoneEvent,
        Action.terminateThread STATUS_UNSUCCESSFUL] ∧
    (threadEntry (fun _ => none) (initCore 0)).report = none :=
  C2_fault_containment (fun _ => none) (initCore 0) (Or.inl rfl)

/-! ## C9 — affinity restored on every exit path -/

/-- C9: On every worker exit path — the normal path and the
fault-containment path alike — the affinity narrowing installed at
entry has been undone by the time the action trace ends: the worker
never terminates with affinity still narrowed, and its trace is
`setAffinityMask`, then `revertAffinity`, before the terminating
action. -/
theorem C9_affinity_restored (readmsr : MsrOracle) (c : CORE) :
    narrowedAfter (threadEntry readmsr c).actions = false ∧
    ∃ st, (threadEntry readmsr c).actions =
      [Action.setAffinityMask (affinityMask c.CpuIndex), Action.revertAffinity,
        Action.setDoneEvent, Action.terminateThread st] := by
  unfold threadEntry tryReadMsrs
  cases readmsr MSR_TEMPERATURE_TARGET with
  | none => exact ⟨rfl, STATUS_UNSUCCESSFUL, rfl⟩
  | some v1 =>
    cases readmsr IA32_THERM_STATUS with
    | none => exact ⟨rfl, STATUS_UNSUCCESSFUL, rfl⟩
    | some v2 =>
      cases readmsr MSR_CUSTOM_808 with
      | none => exact ⟨rfl, STATUS_UNSUCCESSFUL, rfl⟩
      | some v3 => exact ⟨rfl, STATUS_SUCCESS, rfl⟩

/-! ## C4 — thermal-status bitfield layout

The claim places `Resolution` at bits 27–31 and `ReadingValid` at bit
31 of the raw value — the positions the hardware specification fixes.
The source declares `Reserved2 : 4` (bits 24–27) followed by
`Resolution : 5`, which no longer fits in the first 32-bit `ULONG`
allocation unit (only 4 bits remain), so the compiled layout puts
`Resolution` at bits 32–36 and `ReadingValid` at bit 37.  The theorem
evaluates the decoder of the source at the failing input: a raw value
with only bit 31 set — a valid reading on the hardware — decodes with
`ReadingValid = 0`, while bit 37 is what the code actually reads.
The flag bits 0–11 and the `DTS` field at bits 16–23 are at the
claimed positions. -/

/-- C4: the decoder's actual bit positions.  The twelve 1-bit flags
sit at bits 0–11 in the claimed order and `DTS` at bits 16–23, but
`ReadingValid` is not at bit position 31: the raw value `2 ^ 31`
decodes with `ReadingValid = 0`, and the field is instead read from
bit 37, with `Resolution` at bits 32–36 rather than 27–31. -/
theorem C4_decoder_bit_positions :
    (decodeThermStatus (2 ^ 0)).StatusBit = 1 ∧
    (decodeThermStatus (2 ^ 1)).StatusLog = 1 ∧
    (decodeThermStatus (2 ^ 2)).PROCHOT = 1 ∧
    (decodeThermStatus (2 ^ 3)).PROCHOTLog = 1 ∧
    (decodeThermStatus (2 ^ 4)).CriticalTemp = 1 ∧
    (decodeThermStatus (2 ^ 5)).CriticalTempLog = 1 ∧
    (decodeThermStatus (2 ^ 6)).Threshold1 = 1 ∧
    (decodeThermStatus (2 ^ 7)).Threshold1Log = 1 ∧
    (decodeThermStatus (2 ^ 8)).Threshold2 = 1 ∧
    (decodeThermStatus (2 ^ 9)).Threshold2Log = 1 ∧
    (decodeThermStatus (2 ^ 10)).PowerLimit = 1 ∧
    (decodeThermStatus (2 ^ 11)).PowerLimitLog = 1 ∧
    (decodeThermStatus (0xAB <<< 16)).DTS = 0xAB ∧
    (decodeThermStatus (2 ^ 31)).ReadingValid = 0 ∧
    (decodeThermStatus (2 ^ 31)).Resolution = 0 ∧
    (decodeThermStatus (2 ^ 37)).ReadingValid = 1 ∧
    (decodeThermStatus (21 <<< 32)).Resolution = 21 ∧
    (decodeThermStatus (2 ^ 27)).Resolution = 0 := by
  decide

/-! ## C10 — the `-1` sentinel is ambiguous at the interface -/

/-- C10: There is a successful, valid reading (`ReadingValid = 1`,
`DTS = Target + 1`) whose computed temperature is `-1` — the same
value as the no-valid-reading sentinel — and its report is the
invalid-reading line; moreover the report branch treats every
negative recorded temperature as an invalid reading. -/
theorem C10_sentinel_ambiguity :
    ((decodeThermStatus
        ((threadEntry
          (fun a => if a = MSR_TEMPERATURE_TARGET then some (100 <<< 16)
            else if a = IA32_THERM_STATUS then some (2 ^ 37 + (101 <<< 16))
            else some 0)
          (initCore 0)).core.ThermStatus)).ReadingValid = 1 ∧
      (decodeThermStatus
        ((threadEntry
          (fun a => if a = MSR_TEMPERATURE_TARGET then some (100 <<< 16)
            else if a = IA32_THERM_STATUS then some (2 ^ 37 + (101 <<< 16))
            else some 0)
          (initCore 0)).core.ThermStatus)).DTS =
        (decodeTemperatureTarget
          ((threadEntry
            (fun a => if a = MSR_TEMPERATURE_TARGET then some (100 <<< 16)
              else if a = IA32_THERM_STATUS then some (2 ^ 37 + (101 <<< 16))
              else some 0)
            (initCore 0)).core.TjMax)).Target + 1 ∧
      (threadEntry
        (fun a => if a = MSR_TEMPERATURE_TARGET then some (100 <<< 16)
          else if a = IA32_THERM_STATUS then some (2 ^ 37 + (101 <<< 16))
          else some 0)
        (initCore 0)).core.Temperature = -1 ∧
      (threadEntry
        (fun a => if a = MSR_TEMPERATURE_TARGET then some (100 <<< 16)
          else if a = IA32_THERM_STATUS then some (2 ^ 37 + (101 <<< 16))
          else some 0)
        (initCore 0)).report = some (invalidReport 0 0)) ∧
    (∀ c : CORE, c.Temperature < 0 →
      formatBuffer c = invalidReport c.CpuIndex c.Msr808) := by
  refine ⟨⟨by decide, by decide, by decide, by decide⟩, ?_⟩
  intro c h
  unfold formatBuffer
  rw [if_neg (not_le.mpr h)]

/-- Witness for C10's universally quantified part: a context with a
negative recorded temperature is reported with the invalid-reading
line. -/
theorem C10_sentinel_ambiguity_witness :
    formatBuffer { initCore 3 with Temperature := -5 } = invalidReport 3 0 :=
  C10_sentinel_ambiguity.2 { initCore 3 with Temperature := -5 } (by decide)

/-! ## C5 — report line grammar -/

/-- The normal path's report: the three-line temperature report when
the computed temperature is nonnegative, the single invalid-reading
line when it is negative. -/
theorem normalPath_report (mask : Nat) (c : CORE) :
    ((normalPath mask c).core.Temperature ≥ 0 →
      (normalPath mask c).report =
        some (validReportLine1 c.CpuIndex (normalPath mask c).core.Temperature c.Msr808 ++
          validReportRest (decodeThermStatus c.ThermStatus)))
    ∧ ((normalPath mask c).core.Temperature < 0 →
      (normalPath mask c).report = some (invalidReport c.CpuIndex c.Msr808)) := by
  unfold normalPath formatBuffer validReport
  constructor
  · intro h
    simp only at h ⊢
    rw [if_pos h]
  · intro h
    simp only at h ⊢
    rw [if_neg (not_le.mpr h)]

/-- Counterexample to C5 as stated: a worker whose three reads all
succeed and whose decoded reading is valid (`ReadingValid = 1`, with
`Target = 50`, `DTS = 60`) emits the `Temperature reading invalid`
line — which therefore does not appear exactly when the reading is
invalid — and its report does not begin with the `Temp=` line. -/
theorem C5_report_grammar_counterexample :
    (decodeThermStatus
      ((threadEntry
        (fun a => if a = MSR_TEMPERATURE_TARGET then some (50 <<< 16)
          else if a = IA32_THERM_STATUS then some (2 ^ 37 + (60 <<< 16))
          else some 0)
        (initCore 7)).core.ThermStatus)).ReadingValid = 1 ∧
    (threadEntry
      (fun a => if a = MSR_TEMPERATURE_TARGET then some (50 <<< 16)
        else if a = IA32_THERM_STATUS then some (2 ^ 37 + (60 <<< 16))
        else some 0)
      (initCore 7)).report = some (invalidReport 7 0) ∧
    strBeginsWith (invalidReport 7 0) ("Core(" ++ pad2 7 ++ "): Temp=") = false := by
  refine ⟨by decide, by decide, by decide⟩

/-- C5 as amended: for every worker whose three reads succeed, the
report begins with the line
`Core(<NN>): Temp=<T>°C, MSR808=0x<16 hex digits>` when the recorded
temperature is nonnegative, and is exactly the line
`Core(<NN>): Temperature reading invalid, MSR808=0x<16 hex digits>`
when the recorded temperature is negative — the branch is on the sign
of the computed temperature, not on the `ReadingValid` field. -/
theorem C5_report_grammar (readmsr : MsrOracle) (c : CORE) (t s m : Nat)
    (h1 : readmsr MSR_TEMPERATURE_TARGET = some t)
    (h2 : readmsr IA32_THERM_STATUS = some s)
    (h3 : readmsr MSR_CUSTOM_808 = some m)
    (hs : s < 2 ^ 64) (hm : m < 2 ^ 64) :
    ((threadEntry readmsr c).core.Temperature ≥ 0 →
      (threadEntry readmsr c).report =
        some (validReportLine1 c.CpuIndex (threadEntry readmsr c).core.Temperature m ++
          validReportRest (decodeThermStatus s)))
    ∧ ((threadEntry readmsr c).core.Temperature < 0 →
      (threadEntry readmsr c).report = some (invalidReport c.CpuIndex m)) := by
  rw [threadEntry_of_reads_ok readmsr c t s m h1 h2 h3,
    Nat.mod_eq_of_lt hs, Nat.mod_eq_of_lt hm]
  exact normalPath_report (affinityMask c.CpuIndex)
    { c with TjMax := t % 2 ^ 64, ThermStatus := s, Msr808 := m }

/-- Witness for C5 (amended) on both branches: a valid reading with
`Target = 100`, `DTS = 40` gives a report beginning with the
`Temp=60` line, and one with `Target = 0`, `ReadingValid = 0` gives
exactly the invalid-reading line. -/
theorem C5_report_grammar_witness :
    (threadEntry
      (fun a => if a = MSR_TEMPERATURE_TARGET then some (100 <<< 16)
        else if a = IA32_THERM_STATUS then some (2 ^ 37 + (40 <<< 16))
        else some 0)
      (initCore 0)).report =
      some (validReportLine1 0
        (threadEntry
          (fun a => if a = MSR_TEMPERATURE_TARGET then some (100 <<< 16)
            else if a = IA32_THERM_STATUS then some (2 ^ 37 + (40 <<< 16))
            else some 0)
          (initCore 0)).core.Temperature 0 ++
        validReportRest (decodeThermStatus (2 ^ 37 + (40 <<< 16)))) :=
  (C5_report_grammar
    (fun a => if a = MSR_TEMPERATURE_TARGET then some (100 <<< 16)
      else if a = IA32_THERM_STATUS then some (2 ^ 37 + (40 <<< 16))
      else some 0)
    (initCore 0) (100 <<< 16) (2 ^ 37 + (40 <<< 16)) 0
    (by decide) (by decide) (by decide) (by decide) (by decide)).1 (by decide)

/-! ## C8 — the installed affinity mask

The claim quantifies over every processor index `i < N` with `N` the
count across all processor groupings, which can exceed 64.  The mask
`((KAFFINITY)1) << i` lives in a 64-bit word, so for `i ≥ 64` it
cannot select processor `i` (the C shift is undefined behaviour
there; in the truncating 64-bit model the mask is `0`, selecting no
processor at all). -/

/-- Counterexample to C8 as stated: on a host exposing 65 logical
processors, the worker for slot 64 installs the mask
`(1 <<< 64) % 2 ^ 64 = 0`, which does not have bit 64 set — it does
not select processor 64 (nor any processor). -/
theorem C8_affinity_counterexample :
    affinityMask 64 = 0 ∧
    Nat.testBit (affinityMask 64) 64 = false ∧
    (threadEntry (fun _ => some 0) (initCore 64)).actions.head? =
      some (Action.setAffinityMask 0) := by
  refine ⟨by decide, by decide, rfl⟩

/-- C8 as amended: for every slot whose processor index is below 64,
the worker installs (as its first action) the affinity mask
`1 <<< CpuIndex`, and that mask selects exactly the single logical
processor `CpuIndex`: bit `j` of the mask is set precisely when
`j = CpuIndex`. -/
theorem C8_affinity_mask_exclusive (readmsr : MsrOracle) (c : CORE) (j : Nat)
    (h : c.CpuIndex < 64) :
    (threadEntry readmsr c).actions.head? =
      some (Action.setAffinityMask (affinityMask c.CpuIndex)) ∧
    (Nat.testBit (affinityMask c.CpuIndex) j ↔ j = c.CpuIndex) := by
  constructor
  · unfold threadEntry tryReadMsrs
    cases readmsr MSR_TEMPERATURE_TARGET with
    | none => rfl
    | some v1 =>
      cases readmsr IA32_THERM_STATUS with
      | none => rfl
      | some v2 =>
        cases readmsr MSR_CUSTOM_808 with
        | none => rfl
        | some v3 => rfl
  · unfold affinityMask
    rw [Nat.shiftLeft_eq, one_mul,
      Nat.mod_eq_of_lt (Nat.pow_lt_pow_right one_lt_two h)]
    constructor
    · intro htb
      by_contra hne
      rw [Nat.testBit_two_pow_of_ne (fun he => hne he.symm)] at htb
      exact Bool.false_ne_true htb
    · intro he
      subst he
      exact Nat.testBit_two_pow_self

/-- Witness for C8 (amended) at slot 3: the installed mask has bit 3
set. -/
theorem C8_affinity_mask_exclusive_witness :
    Nat.testBit (affinityMask (initCore 3).CpuIndex) 3 ↔ 3 = (initCore 3).CpuIndex :=
  (C8_affinity_mask_exclusive (fun _ => some 0) (initCore 3) 3 (by decide)).2

/-! ## C7 — empty processor count -/

/-- C7: When the queried live processor count is `0`, the pass fails
(returning `STATUS_UNSUCCESSFUL` with the explicit
`No active processors found.` diagnostic — the `NoProcessorsFound`
error of the design), spawns zero workers, and performs no
context-array allocation. -/
theorem C7_no_processors (allocOk : Bool) (spawnOk : Nat → Bool)
    (readmsr : Nat → MsrOracle) :
    (driverEntry allocOk 0 spawnOk readmsr).status = STATUS_UNSUCCESSFUL ∧
    (driverEntry allocOk 0 spawnOk readmsr).allocated = false ∧
    (driverEntry allocOk 0 spawnOk readmsr).spawnedCount = 0 ∧
    (driverEntry allocOk 0 spawnOk readmsr).slots = [] ∧
    (driverEntry allocOk 0 spawnOk readmsr).logs = ["No active processors found.\n"] :=
  ⟨rfl, rfl, rfl, rfl, rfl⟩

/-! ## C6 — spawn-failure compensation -/

/-- C6: For every slot whose worker spawn fails, the coordinator
itself sets that slot's completion event in the spawn loop, records
the failure (the slot appears in the per-processor spawn-failure
record) and proceeds: the pass still covers all `coreCount` slots and
returns `STATUS_SUCCESS`, and the failed slot's temperature stays at
its zero-initialized value `0`. -/
theorem C6_spawn_failure_compensation (coreCount : Nat) (spawnOk : Nat → Bool)
    (readmsr : Nat → MsrOracle) (i : Nat)
    (hi : i < coreCount) (hsp : spawnOk i = false) :
    (driverEntry true coreCount spawnOk readmsr).status = STATUS_SUCCESS ∧
    (driverEntry true coreCount spawnOk readmsr).slots.length = coreCount ∧
    (driverEntry true coreCount spawnOk readmsr).slots[i]? =
      some { core := { initCore i with ThreadDoneEvent := true }
             spawnedWorker := false
             eventSetByCoordinator := true
             report := none } ∧
    i ∈ (driverEntry true coreCount spawnOk readmsr).spawnFailures := by
  have hne : ¬ coreCount = 0 := by omega
  unfold driverEntry
  rw [if_neg hne]
  refine ⟨rfl, by simp, ?_, ?_⟩
  · show (((List.range coreCount).map (spawnSlot spawnOk readmsr)).map closeHandle)[i]? = _
    rw [List.getElem?_map, List.getElem?_map, List.getElem?_range hi]
    simp [spawnSlot, closeHandle, hsp, initCore]
  · exact List.mem_filter.mpr ⟨List.mem_range.mpr hi, by simp [hsp]⟩

/-- Witness for C6: `N = 3`, spawn fails for slot 1 — the spec's own
scenario. -/
theorem C6_spawn_failure_compensation_witness :
    (driverEntry true 3 (fun i => !(i == 1)) (fun _ _ => some 0)).status = STATUS_SUCCESS ∧
    (driverEntry true 3 (fun i => !(i == 1)) (fun _ _ => some 0)).slots.length = 3 ∧
    (driverEntry true 3 (fun i => !(i == 1)) (fun _ _ => some 0)).slots[1]? =
      some { core := { initCore 1 with ThreadDoneEvent := true }
             spawnedWorker := false
             eventSetByCoordinator := true
             report := none } ∧
    1 ∈ (driverEntry true 3 (fun i => !(i == 1)) (fun _ _ => some 0)).spawnFailures :=
  C6_spawn_failure_compensation 3 (fun i => !(i == 1)) (fun _ _ => some 0) 1
    (by decide) (by decide)

/-! ## C3 — the fan-in barrier -/

/-- Counterexample to C3 as stated: with `N = 2` and the spawn of
slot 0 failing, the coordinator's wait loop — which guards each wait
with `ThreadHandle != NULL` — waits only on slot 1, not on every slot
`0..N-1`. -/
theorem C3_barrier_counterexample :
    (driverEntry true 2 (fun i => i == 1) (fun _ _ => some 0)).waitedOn = [1] ∧
    (driverEntry true 2 (fun i => i == 1) (fun _ _ => some 0)).waitedOn ≠
      List.range 2 := by
  refine ⟨by decide, by decide⟩

/-- C3 as amended: after the spawn loop, the coordinator waits, in
index order, on exactly the slots whose spawn succeeded (slots whose
spawn failed are skipped — the coordinator already set their
completion event itself at spawn time), and the pass returns
`STATUS_SUCCESS` with all `coreCount` slots present and every slot's
completion event set — even when some workers faulted or failed to
spawn. -/
theorem C3_barrier_completeness (coreCount : Nat) (spawnOk : Nat → Bool)
    (readmsr : Nat → MsrOracle) (h : 0 < coreCount) :
    (driverEntry true coreCount spawnOk readmsr).waitedOn =
      (List.range coreCount).filter (fun i => spawnOk i) ∧
    (driverEntry true coreCount spawnOk readmsr).status = STATUS_SUCCESS ∧
    (driverEntry true coreCount spawnOk readmsr).slots.length = coreCount ∧
    ∀ s ∈ (driverEntry true coreCount spawnOk readmsr).slots,
      s.core.ThreadDoneEvent = true := by
  have hne : ¬ coreCount = 0 := by omega
  unfold driverEntry
  rw [if_neg hne]
  refine ⟨rfl, rfl, by simp, ?_⟩
  intro s hs
  obtain ⟨s', hs', rfl⟩ := List.mem_map.mp hs
  obtain ⟨i, _, rfl⟩ := List.mem_map.mp hs'
  by_cases hsp : spawnOk i
  · simp [spawnSlot, closeHandle, hsp, threadEntry_done]
  · simp [spawnSlot, closeHandle, hsp]

/-- Witness for C3 (amended): `N = 3` with the spawn of slot 1
failing: the coordinator waits on slots 0 and 2 only, the pass
succeeds, and all three completion events are set. -/
theorem C3_barrier_completeness_witness :
    (driverEntry true 3 (fun i => !(i == 1)) (fun _ _ => some 0)).waitedOn =
      (List.range 3).filter (fun i => !(i == 1)) ∧
    (driverEntry true 3 (fun i => !(i == 1)) (fun _ _ => some 0)).status = STATUS_SUCCESS ∧
    (driverEntry true 3 (fun i => !(i == 1)) (fun _ _ => some 0)).slots.length = 3 ∧
    ∀ s ∈ (driverEntry true 3 (fun i => !(i == 1)) (fun _ _ => some 0)).slots,
      s.core.ThreadDoneEvent = true :=
  C3_barrier_completeness 3 (fun i => !(i == 1)) (fun _ _ => some 0) (by decide)

end MsrDriver
